import Mathlib

/-!
Verification of the queued forwarding proxy (three source variants:
`src/server.js`, the heartbeat variant, and the two raw-passthrough variants in
`src/unnamed/part_000` and `src/unnamed/part_001`).

The embedding below translates the JavaScript sources into Lean:
JSON-like values become the mutual inductive `JVal`, the module-level `queue`
and `processing` variables become the state record `Sched` stepped by the
`enqueue` and dispatch-complete events, and each dispatch path is rendered
as the list of events it emits on the client response handle (`Ev`).
-/

mutual
/-- JSON-like values carried in request and response bodies.  Numbers are
modelled as integers (no claim involves fractional values). -/
inductive JVal where
  | null
  | bool (b : Bool)
  | num (n : Int)
  | str (s : String)
  | arr (elems : JElems)
  | obj (fields : JMembers)
/-- Element list of a JSON array. -/
inductive JElems where
  | nil
  | cons (head : JVal) (tail : JElems)
/-- Member list of a JSON object. -/
inductive JMembers where
  | nil
  | cons (key : String) (val : JVal) (tail : JMembers)
end

/-- Hexadecimal digit character (lowercase), for control-character escapes. -/
def hexDigitChar (n : Nat) : Char :=
  if n < 10 then Char.ofNat (48 + n) else Char.ofNat (87 + (n - 10))

/-- Four-digit lowercase hex rendering used by the string escaper. -/
def hex4 (n : Nat) : String :=
  String.mk [hexDigitChar ((n / 4096) % 16), hexDigitChar ((n / 256) % 16),
    hexDigitChar ((n / 16) % 16), hexDigitChar (n % 16)]

/-- One character of a JSON string literal, escaped as JSON.stringify does. -/
def escapeChar (c : Char) : String :=
  if c = '"' then "\\\""
  else if c = '\\' then "\\\\"
  else if c = '\x08' then "\\b"
  else if c = '\x0c' then "\\f"
  else if c = '\n' then "\\n"
  else if c = '\r' then "\\r"
  else if c = '\t' then "\\t"
  else if c.toNat < 32 then "\\u" ++ hex4 c.toNat
  else String.singleton c

/-- A JSON string literal with surrounding quotes. -/
def quoteStr (s : String) : String :=
  "\"" ++ String.join (s.toList.map escapeChar) ++ "\""

/-- `n` spaces, the indentation JSON.stringify uses with indent argument 2. -/
def indentStr (n : Nat) : String :=
  String.mk (List.replicate n ' ')

mutual
/-- Serializer shared by the pretty (`some indent`, matching
JSON.stringify(v, null, 2) of server.js line 127) and compact (`none`,
matching the bare JSON.stringify of the catch handlers) renderings. -/
def strVal : Option Nat → JVal → String
  | _, JVal.null => "null"
  | _, JVal.bool true => "true"
  | _, JVal.bool false => "false"
  | _, JVal.num n => toString n
  | _, JVal.str s => quoteStr s
  | _, JVal.arr JElems.nil => "[]"
  | none, JVal.arr es => "[" ++ strElems none es ++ "]"
  | some i, JVal.arr es => "[\n" ++ strElems (some (i + 2)) es ++ "\n" ++ indentStr i ++ "]"
  | _, JVal.obj JMembers.nil => "\x7b\x7d"
  | none, JVal.obj ms => "\x7b" ++ strMembers none ms ++ "\x7d"
  | some i, JVal.obj ms =>
    "\x7b\n" ++ strMembers (some (i + 2)) ms ++ "\n" ++ indentStr i ++ "\x7d"
/-- Comma-joined array elements; in pretty mode each on its own line at the
given indent. -/
def strElems : Option Nat → JElems → String
  | _, JElems.nil => ""
  | none, JElems.cons v JElems.nil => strVal none v
  | none, JElems.cons v tail => strVal none v ++ "," ++ strElems none tail
  | some j, JElems.cons v JElems.nil => indentStr j ++ strVal (some j) v
  | some j, JElems.cons v tail =>
    indentStr j ++ strVal (some j) v ++ ",\n" ++ strElems (some j) tail
/-- Comma-joined object members; in pretty mode each on its own line at the
given indent, with a space after the colon. -/
def strMembers : Option Nat → JMembers → String
  | _, JMembers.nil => ""
  | none, JMembers.cons k v JMembers.nil => quoteStr k ++ ":" ++ strVal none v
  | none, JMembers.cons k v tail =>
    quoteStr k ++ ":" ++ strVal none v ++ "," ++ strMembers none tail
  | some j, JMembers.cons k v JMembers.nil =>
    indentStr j ++ quoteStr k ++ ": " ++ strVal (some j) v
  | some j, JMembers.cons k v tail =>
    indentStr j ++ quoteStr k ++ ": " ++ strVal (some j) v ++ ",\n" ++ strMembers (some j) tail
end

/-- JSON.stringify(v, null, 2): formatted serialization (server.js line 127). -/
def jsonStringify (v : JVal) : String := strVal (some 0) v

/-- JSON.stringify(v): compact serialization (server.js lines 107 and 142). -/
def jsonStringifyCompact (v : JVal) : String := strVal none v

/-- The buffered-mode body serialization of server.js lines 124-130: a value of
JavaScript typeof object (object, array or null) is rendered with
JSON.stringify(data, null, 2); any other value is rendered with String(data). -/
def serializeData : JVal → String
  | JVal.obj ms => jsonStringify (JVal.obj ms)
  | JVal.arr es => jsonStringify (JVal.arr es)
  | JVal.null => jsonStringify JVal.null
  | JVal.str s => s
  | JVal.num n => toString n
  | JVal.bool b => cond b "true" "false"

/-- Skip JSON whitespace. -/
def skipWs : List Char → List Char
  | [] => []
  | c :: rest =>
    if c = ' ' ∨ c = '\n' ∨ c = '\t' ∨ c = '\r' then skipWs rest else c :: rest

/-- Value of a hexadecimal digit, if any. -/
def hexVal (c : Char) : Option Nat :=
  if '0' ≤ c ∧ c ≤ '9' then some (c.toNat - 48)
  else if 'a' ≤ c ∧ c ≤ 'f' then some (c.toNat - 87)
  else if 'A' ≤ c ∧ c ≤ 'F' then some (c.toNat - 55)
  else none

/-- Single-character JSON escapes. -/
def escDecode (e : Char) : Option String :=
  if e = '"' then some "\""
  else if e = '\\' then some "\\"
  else if e = '/' then some "/"
  else if e = 'b' then some "\x08"
  else if e = 'f' then some "\x0c"
  else if e = 'n' then some "\n"
  else if e = 'r' then some "\r"
  else if e = 't' then some "\t"
  else none

/-- Body of a JSON string literal (after the opening quote), with escapes. -/
def parseStringBody : Nat → List Char → Option (String × List Char)
  | 0, _ => none
  | _ + 1, [] => none
  | fuel + 1, c :: rest =>
    if c = '"' then some ("", rest)
    else if c = '\\' then
      match rest with
      | [] => none
      | e :: rest2 =>
        match escDecode e with
        | some t => (parseStringBody fuel rest2).map (fun r => (t ++ r.1, r.2))
        | none =>
          if e = 'u' then
            match rest2 with
            | h1 :: h2 :: h3 :: h4 :: rest3 =>
              match hexVal h1, hexVal h2, hexVal h3, hexVal h4 with
              | some a, some b, some c2, some d =>
                (parseStringBody fuel rest3).map
                  (fun r =>
                    (String.singleton (Char.ofNat (((a * 16 + b) * 16 + c2) * 16 + d)) ++ r.1,
                     r.2))
              | _, _, _, _ => none
            | _ => none
          else none
    else (parseStringBody fuel rest).map (fun r => (String.singleton c ++ r.1, r.2))

/-- Longest leading run of decimal digits. -/
def takeDigits : List Char → (List Char × List Char)
  | [] => ([], [])
  | c :: rest =>
    if c.isDigit then
      let r := takeDigits rest
      (c :: r.1, r.2)
    else ([], c :: rest)

/-- Decimal value of a digit run. -/
def digitsToNat (ds : List Char) : Nat :=
  ds.foldl (fun acc c => acc * 10 + (c.toNat - 48)) 0

/-- Reject fractional and exponent forms (outside the integer model), else
yield the parsed integer. -/
def numGuard (n : Int) (rest : List Char) : Option (JVal × List Char) :=
  match rest with
  | [] => some (JVal.num n, [])
  | c :: _ =>
    if c = '.' ∨ c = 'e' ∨ c = 'E' then none else some (JVal.num n, rest)

/-- A JSON number starting at the given characters. -/
def parseNumFrom (s : List Char) : Option (JVal × List Char) :=
  match s with
  | '-' :: rest =>
    match takeDigits rest with
    | ([], _) => none
    | (ds, rest2) => numGuard (-(digitsToNat ds : Int)) rest2
  | _ =>
    match takeDigits s with
    | ([], _) => none
    | (ds, rest2) => numGuard (digitsToNat ds) rest2

mutual

/-- A JSON value, fuel-indexed recursive-descent parser. -/
def parseVal : Nat → List Char → Option (JVal × List Char)
  | 0, _ => none
  | fuel + 1, s =>
    match skipWs s with
    | [] => none
    | c :: rest =>
      if c = '"' then
        (parseStringBody (rest.length + 1) rest).map (fun r => (JVal.str r.1, r.2))
      else if c = '\x7b' then
        match skipWs rest with
        | '\x7d' :: rest2 => some (JVal.obj JMembers.nil, rest2)
        | _ => (parseFields fuel rest).map (fun r => (JVal.obj r.1, r.2))
      else if c = '[' then
        match skipWs rest with
        | ']' :: rest2 => some (JVal.arr JElems.nil, rest2)
        | _ => (parseElems fuel rest).map (fun r => (JVal.arr r.1, r.2))
      else if c = 't' then
        match rest with
        | 'r' :: 'u' :: 'e' :: rest2 => some (JVal.bool true, rest2)
        | _ => none
      else if c = 'f' then
        match rest with
        | 'a' :: 'l' :: 's' :: 'e' :: rest2 => some (JVal.bool false, rest2)
        | _ => none
      else if c = 'n' then
        match rest with
        | 'u' :: 'l' :: 'l' :: rest2 => some (JVal.null, rest2)
        | _ => none
      else parseNumFrom (c :: rest)

/-- Nonempty member list of a JSON object (after the opening brace). -/
def parseFields : Nat → List Char → Option (JMembers × List Char)
  | 0, _ => none
  | fuel + 1, s =>
    match skipWs s with
    | '"' :: rest =>
      match parseStringBody (rest.length + 1) rest with
      | none => none
      | some (k, rest2) =>
        match skipWs rest2 with
        | ':' :: rest3 =>
          match parseVal fuel rest3 with
          | none => none
          | some (v, rest4) =>
            match skipWs rest4 with
            | ',' :: rest5 =>
              (parseFields fuel rest5).map (fun r => (JMembers.cons k v r.1, r.2))
            | '\x7d' :: rest5 => some (JMembers.cons k v JMembers.nil, rest5)
            | _ => none
        | _ => none
    | _ => none

/-- Nonempty element list of a JSON array (after the opening bracket). -/
def parseElems : Nat → List Char → Option (JElems × List Char)
  | 0, _ => none
  | fuel + 1, s =>
    match parseVal fuel s with
    | none => none
    | some (v, rest) =>
      match skipWs rest with
      | ',' :: rest2 => (parseElems fuel rest2).map (fun r => (JElems.cons v r.1, r.2))
      | ']' :: rest2 => some (JElems.cons v JElems.nil, rest2)
      | _ => none

end

/-- JSON.parse, restricted to the integer-number model. -/
def jsonParse (s : String) : Option JVal :=
  match parseVal (s.length + 1) s.toList with
  | some (v, rest) => if (skipWs rest).isEmpty then some v else none
  | none => none

/-- First value stored under key `k` in a JavaScript-object association list
(property read `body[k]`). -/
def jsGet (b : List (String × JVal)) (k : String) : Option JVal :=
  match b with
  | [] => none
  | (k2, v) :: rest => if k2 = k then some v else jsGet rest k

/-- server.js line 54: `forwardBody.stream === true`. -/
def streamFlag (body : List (String × JVal)) : Bool :=
  match jsGet body "stream" with
  | some (JVal.bool true) => true
  | _ => false

/-- The Body Transformer of server.js lines 52-60: spread-copy the inbound
body, read the strict-equality stream flag, and when the key `stream` is
present at all delete it from the copy.  Returns (forwarded body, stream
mode).  The embedding is a pure function: the caller's original association
list is untouched, which models the spread copy. -/
def transformBody (body : List (String × JVal)) : List (String × JVal) × Bool :=
  (if (jsGet body "stream").isSome
     then body.filter (fun p => !(p.1 == "stream"))
     else body,
   streamFlag body)

/-- ASCII lowering, as JavaScript toLowerCase on header names. -/
def lowerString (s : String) : String :=
  String.mk (s.toList.map Char.toLower)

/-- server.js line 21. -/
def allowedHeaders : List String := ["content-type", "accept", "authorization"]

/-- The Header Filter of server.js lines 43-48: keep exactly the entries whose
lowercased key is in the allow-list, preserving original key casing, values
and order.  A pure function with no side effects. -/
def filterHeaders (hs : List (String × String)) : List (String × String) :=
  hs.filter (fun p => allowedHeaders.contains (lowerString p.1))

/-- The scheduler state shared by all three variants: the module-level `queue`
and `processing` variables, instrumented with the list of requests currently
in the Dispatching phase (`inflight`), the log of requests that reached their
terminal outcome (`completed`), and the next arrival-order index.  Requests
are identified by their arrival index. -/
structure Sched where
  queue : List Nat
  processing : Bool
  inflight : List Nat
  completed : List Nat
  nextIdx : Nat

/-- The state before any request arrives (server.js lines 24-25). -/
def initSched : Sched := ⟨[], false, [], [], 0⟩

/-- processQueue, server.js lines 30-38: if the queue is empty clear the
processing flag and return; otherwise set the flag, shift the head off the
queue and begin dispatching it (it enters the Dispatching phase). -/
def processQueue (s : Sched) : Sched :=
  match s.queue with
  | [] => { s with processing := false }
  | r :: rest =>
    { s with processing := true, queue := rest, inflight := s.inflight ++ [r] }

/-- The endpoint handler, server.js lines 154-161: push the new request onto
the queue and, when the processing flag is clear, invoke processQueue. -/
def enqueue (s : Sched) : Sched :=
  let s1 := { s with queue := s.queue ++ [s.nextIdx], nextIdx := s.nextIdx + 1 }
  if s1.processing then s1 else processQueue s1

/-- The dispatch-complete signal: the request in flight reaches its terminal
outcome (moves to the completed log) and its callback invokes processQueue
(every exit path of server.js lines 77-150 and part_001 lines 34-61). -/
def completeDispatch (s : Sched) : Sched :=
  processQueue { s with inflight := [], completed := s.completed ++ s.inflight }

/-- The two events that step the scheduler: an arrival at the endpoint, and a
dispatch-complete signal from the request in flight. -/
inductive Step : Sched → Sched → Prop
  | enq (s : Sched) : Step s (enqueue s)
  | done (s : Sched) (h : s.inflight ≠ []) : Step s (completeDispatch s)

/-- States reachable from the initial state by enqueue and dispatch-complete
events. -/
inductive Reachable : Sched → Prop
  | init : Reachable initSched
  | step {s t : Sched} : Reachable s → Step s t → Reachable t

/-- The scheduler invariant: completed, in-flight and queued requests taken
together are exactly the arrivals so far in arrival order; at most one request
is in flight; and when the processing flag is clear nothing is in flight or
queued. -/
def SchedInv (s : Sched) : Prop :=
  s.completed ++ s.inflight ++ s.queue = List.range s.nextIdx
  ∧ s.inflight.length ≤ 1
  ∧ (s.processing = false → s.inflight = [] ∧ s.queue = [])

/-- Reachable example: one request admitted and dispatched. -/
def sEx1 : Sched := enqueue initSched

/-- Reachable example: a second request admitted while the first is in flight. -/
def sEx2 : Sched := enqueue sEx1

/-- Reachable example: the first request completed, the second now in flight. -/
def sEx3 : Sched := completeDispatch sEx2

/-- Events observable on the client response handle, plus the
dispatch-complete signal (the processQueue invocation that advances the
queue). -/
inductive Ev where
  | writeHead (status : Nat) (contentType : String)
  | writeHeadRaw (status : Nat) (headers : List (String × String))
  | write (chunk : String)
  | endResp
  | statusSend (status : Nat) (body : String)
  | complete
deriving DecidableEq

/-- How a downstream body stream terminates. -/
inductive StreamTerm where
  | ended
  | errored (emsg : String)
deriving DecidableEq

/-- A resolved downstream streaming response: status, headers, the body chunks
delivered before the terminal stream event, and that terminal event. -/
structure StreamResp where
  status : Nat
  headers : List (String × String)
  chunks : List String
  term : StreamTerm

/-- A resolved downstream buffered response. -/
structure BufResp where
  status : Nat
  data : JVal

/-- A rejected downstream call: `err.response` is present for HTTP-level
errors (carrying the downstream status and error body) and absent for
transport failures; `msg` is `err.toString()`. -/
structure AxiosErr where
  response : Option (Nat × JVal)
  msg : String

/-- server.js line 69. -/
def waitingLine : String := "排队中，请稍后...\n"

/-- server.js line 75. -/
def transitionLine : String := "\n--- 开始返回数据 ---\n"

/-- server.js line 97. -/
def streamErrorLine : String := "\nAPI响应流发生错误\n"

/-- server.js lines 107, 109, 142 and 144. -/
def forwardErrorMark : String := "转发请求时发生错误："

/-- The catch handler shared verbatim by both branches of server.js
(lines 102-113 and 137-148): write the error report into the already-committed
body (the JSON-serialized downstream error body if a response was received,
else the error description), finalize, and signal dispatch-complete. -/
def srvCatch (e : AxiosErr) : List Ev :=
  match e.response with
  | some (_, d) =>
    [Ev.write (forwardErrorMark ++ jsonStringifyCompact d), Ev.endResp, Ev.complete]
  | none => [Ev.write (forwardErrorMark ++ e.msg), Ev.endResp, Ev.complete]

/-- The streaming branch of server.js (lines 77-113): pipe the downstream
chunks to the client; on natural end finalize and signal dispatch-complete;
on a mid-stream error write the inline marker, finalize and signal
dispatch-complete; on a rejected call run the catch handler. -/
def dispatchStreamSrv : Except AxiosErr StreamResp → List Ev
  | Except.ok r =>
    r.chunks.map Ev.write ++
      match r.term with
      | StreamTerm.ended => [Ev.endResp, Ev.complete]
      | StreamTerm.errored _ => [Ev.write streamErrorLine, Ev.endResp, Ev.complete]
  | Except.error e => srvCatch e

/-- The buffered branch of server.js (lines 114-148): write the serialized
body, finalize, signal dispatch-complete; on a rejected call run the catch
handler. -/
def dispatchBufSrv : Except AxiosErr BufResp → List Ev
  | Except.ok r => [Ev.write (serializeData r.data), Ev.endResp, Ev.complete]
  | Except.error e => srvCatch e

/-- Outcome of one dispatched request in server.js: the mode chosen by the
Body Transformer selects the streaming or buffered axios call, and the
downstream transport resolves or rejects it. -/
inductive Outcome where
  | streamed (r : Except AxiosErr StreamResp)
  | buffered (r : Except AxiosErr BufResp)

/-- Events of the dispatch phase of server.js for a given outcome. -/
def srvDispatch : Outcome → List Ev
  | Outcome.streamed r => dispatchStreamSrv r
  | Outcome.buffered r => dispatchBufSrv r

/-- Node timer semantics for server.js lines 67-74: the interval started
together with the hold timeout ticks at (k+1)*interval until it is cleared at
`clearAt`; clearInterval guarantees no tick at or after the clearing instant.
The range bound covers every k with (k+1)*interval < clearAt. -/
def heartbeatTicks (clearAt interval : Nat) : List Nat :=
  ((List.range (clearAt / interval + 1)).map (fun k => (k + 1) * interval)).filter
    (fun t => decide (t < clearAt))

/-- The full client-visible timeline of one dispatched request in server.js
(lines 63-150): the status line committed as 200 text/plain up front, a
waiting line per heartbeat tick during the 2000 ms hold (interval 5000 ms),
the transition marker once the hold elapses and the interval is cleared, then
the dispatch events. -/
def serverTimeline (o : Outcome) : List Ev :=
  Ev.writeHead 200 "text/plain; charset=utf-8" ::
    ((heartbeatTicks 2000 5000).map (fun _ => Ev.write waitingLine) ++
      (Ev.write transitionLine :: srvDispatch o))

/-- The dispatch of the raw-passthrough variants (part_000 lines 34-61 and
part_001 lines 34-61): on a resolved call relay the downstream status and
headers, pipe the chunks, and on natural stream end finalize (pipe ends the
destination) and signal dispatch-complete, while on a mid-stream error only
signal dispatch-complete (pipe does not end the destination on a source
error, and the on-error listener does nothing else); on a rejected call send
status 500 with err.toString() and signal dispatch-complete. -/
def dispatchPassthrough : Except AxiosErr StreamResp → List Ev
  | Except.ok r =>
    Ev.writeHeadRaw r.status r.headers ::
      (r.chunks.map Ev.write ++
        match r.term with
        | StreamTerm.ended => [Ev.endResp, Ev.complete]
        | StreamTerm.errored _ => [Ev.complete])
  | Except.error e => [Ev.statusSend 500 e.msg, Ev.complete]

/-- Dispatch-complete signals in an event list. -/
def isComplete : Ev → Bool
  | Ev.complete => true
  | _ => false

/-- Events that finalize the client response. -/
def isFinalize : Ev → Bool
  | Ev.endResp => true
  | Ev.statusSend _ _ => true
  | _ => false

/-- Events that commit a status code to the caller. -/
def isStatusEv : Ev → Bool
  | Ev.writeHead _ _ => true
  | Ev.writeHeadRaw _ _ => true
  | Ev.statusSend _ _ => true
  | _ => false

/-- Writes of the heartbeat waiting line. -/
def isWaitingWrite : Ev → Bool
  | Ev.write s => s == waitingLine
  | _ => false

/-- Writes of the transition marker. -/
def isTransitionWrite : Ev → Bool
  | Ev.write s => s == transitionLine
  | _ => false

/-- Number of dispatch-complete signals. -/
def completeCount (evs : List Ev) : Nat := evs.countP isComplete

/-- Number of status-committing events. -/
def statusCount (evs : List Ev) : Nat := evs.countP isStatusEv

/-- Number of waiting-line writes. -/
def waitingCount (evs : List Ev) : Nat := evs.countP isWaitingWrite

/-- Number of transition-marker writes. -/
def transitionCount (evs : List Ev) : Nat := evs.countP isTransitionWrite

/-- Scan recording whether a finalize was seen before each complete signal. -/
def cafGo : Bool → List Ev → Bool
  | _, [] => true
  | seen, e :: rest =>
    if isComplete e then seen && cafGo seen rest
    else cafGo (seen || isFinalize e) rest

/-- Every dispatch-complete signal is preceded by a finalize of the client
response. -/
def completeAfterFinalize (evs : List Ev) : Bool := cafGo false evs

/-- The status code the caller sees: the first status-committing event. -/
def callerStatus : List Ev → Option Nat
  | [] => none
  | Ev.writeHead st _ :: _ => some st
  | Ev.writeHeadRaw st _ :: _ => some st
  | Ev.statusSend st _ :: _ => some st
  | _ :: rest => callerStatus rest

/-- The downstream body of the buffered round-trip scenario. -/
def exampleBody : JVal := JVal.obj (JMembers.cons "result" (JVal.str "ok") JMembers.nil)

/-- A transport failure: connection refused, no response received. -/
def cexTransportErr : AxiosErr := ⟨none, "Error: connect ECONNREFUSED 127.0.0.1:443"⟩

/-- A streaming response that errors mid-transfer after one chunk. -/
def cexStreamErr : StreamResp := ⟨200, [], ["data: hello\n"], StreamTerm.errored "read failed"⟩

/-- The header-filter example of the spec. -/
def exHeaders : List (String × String) :=
  [("Content-Type", "application/json"), ("X-Secret", "abc"), ("Authorization", "Bearer t")]

/-- A body without the stream key. -/
def exBodyNoStream : List (String × JVal) := [("x", JVal.num 1)]

/-- The initial state satisfies the scheduler invariant. -/
theorem schedInv_init : SchedInv initSched :=
  ⟨rfl, by simp [initSched], fun _ => ⟨rfl, rfl⟩⟩

/-- An enqueue event preserves the scheduler invariant. -/
theorem schedInv_enqueue {s : Sched} (h : SchedInv s) : SchedInv (enqueue s) := by
  obtain ⟨q, p, inf, comp, n⟩ := s
  obtain ⟨hcat, hlen, hidle⟩ := h
  simp only at hcat hlen hidle
  cases p with
  | true =>
    refine ⟨?_, by simpa [enqueue, processQueue] using hlen, by simp [enqueue, processQueue]⟩
    simp [enqueue, processQueue, List.range_succ, ← hcat]
  | false =>
    obtain ⟨hinf, hq⟩ := hidle rfl
    subst hinf hq
    simp only [List.append_nil] at hcat
    refine ⟨?_, by simp [enqueue, processQueue], by simp [enqueue, processQueue]⟩
    simp [enqueue, processQueue, List.range_succ, hcat]

/-- A dispatch-complete event preserves the scheduler invariant. -/
theorem schedInv_complete {s : Sched} (h : SchedInv s) : SchedInv (completeDispatch s) := by
  obtain ⟨q, p, inf, comp, n⟩ := s
  obtain ⟨hcat, hlen, hidle⟩ := h
  simp only at hcat
  cases q with
  | nil =>
    refine ⟨?_, by simp [completeDispatch, processQueue], ?_⟩
    · simp only [completeDispatch, processQueue]
      simpa using hcat
    · intro _
      exact ⟨rfl, rfl⟩
  | cons x rest =>
    refine ⟨?_, by simp [completeDispatch, processQueue], by simp [completeDispatch, processQueue]⟩
    simp only [completeDispatch, processQueue]
    rw [← hcat]
    simp [List.append_assoc]

/-- Every reachable scheduler state satisfies the invariant. -/
theorem reachable_schedInv {s : Sched} (h : Reachable s) : SchedInv s := by
  induction h with
  | init => exact schedInv_init
  | step _ hstep ih =>
    cases hstep with
    | enq => exact schedInv_enqueue ih
    | done hne => exact schedInv_complete ih

/-- Claim C1: in every reachable scheduler state at most one request is in
the Dispatching phase; enqueue always leaves the processing flag busy (it is
set before any asynchronous dispatch work, inside processQueue, whenever a
dispatch begins), and the flag is cleared only on the dispatch-complete path
and exactly when the queue is empty — never from the enqueue path. -/
theorem scheduler_single_flight (s : Sched) (h : Reachable s) :
    s.inflight.length ≤ 1
    ∧ (enqueue s).processing = true
    ∧ ((processQueue s).inflight ≠ s.inflight → (processQueue s).processing = true)
    ∧ ((completeDispatch s).processing = false ↔ s.queue = []) := by
  refine ⟨(reachable_schedInv h).2.1, ?_, ?_, ?_⟩
  · obtain ⟨q, p, inf, comp, n⟩ := s
    cases p with
    | true => simp [enqueue]
    | false =>
      cases q with
      | nil => simp [enqueue, processQueue]
      | cons a t => simp [enqueue, processQueue]
  · obtain ⟨q, p, inf, comp, n⟩ := s
    cases q with
    | nil => intro hc; simp [processQueue] at hc
    | cons a t => intro _; simp [processQueue]
  · obtain ⟨q, p, inf, comp, n⟩ := s
    cases q with
    | nil => simp [completeDispatch, processQueue]
    | cons a t => simp [completeDispatch, processQueue]

/-- Witness for claim C1 at the (reachable) initial state. -/
theorem scheduler_single_flight_witness :
    Reachable initSched ∧ initSched.inflight.length ≤ 1
      ∧ (enqueue initSched).processing = true :=
  ⟨Reachable.init, (scheduler_single_flight initSched Reachable.init).1,
    (scheduler_single_flight initSched Reachable.init).2.1⟩

/-- Claim C2: in every reachable scheduler state the completed, in-flight and
queued requests in order are exactly the arrivals 0,...,nextIdx-1 (strict FIFO,
no reordering), and whenever request k is in the Dispatching phase the
completed log is exactly 0,...,k-1 — every earlier arrival has reached its
terminal outcome before k began dispatch, and no later one has. -/
theorem scheduler_fifo (s : Sched) (h : Reachable s) :
    s.completed ++ s.inflight ++ s.queue = List.range s.nextIdx
    ∧ ∀ k, s.inflight = [k] → s.completed = List.range k := by
  have hinv := reachable_schedInv h
  refine ⟨hinv.1, fun k hk => ?_⟩
  have hcat := hinv.1
  rw [hk, List.append_assoc] at hcat
  have hlen2 : s.completed.length < s.nextIdx := by
    have hl := congrArg List.length hcat
    simp at hl
    omega
  have h1 : (s.completed ++ ([k] ++ s.queue))[s.completed.length]? = some k := by
    rw [List.getElem?_append_right (Nat.le_refl _)]
    simp
  rw [hcat, List.getElem?_range hlen2] at h1
  have hk2 : k = s.completed.length := (Option.some.inj h1).symm
  have e1 : s.completed = (List.range s.nextIdx).take s.completed.length := by
    rw [← hcat, List.take_left]
  have e2 : (List.range s.nextIdx).take s.completed.length
      = List.range s.completed.length := by
    apply List.ext_getElem?
    intro i
    by_cases hi : i < s.completed.length
    · rw [List.getElem?_take_of_lt hi, List.getElem?_range (lt_trans hi hlen2),
        List.getElem?_range hi]
    · have hge : s.completed.length ≤ i := Nat.le_of_not_lt hi
      rw [List.getElem?_eq_none (by simp; omega), List.getElem?_eq_none (by simp; omega)]
  rw [hk2]
  exact e1.trans e2

/-- Witness for claim C2: after two admissions and one completion, request 1
is in flight and exactly request 0 has completed. -/
theorem scheduler_fifo_witness :
    Reachable sEx3 ∧ sEx3.inflight = [1] ∧ sEx3.completed = List.range 1 := by
  have hne : sEx2.inflight ≠ [] := by decide
  have hr : Reachable sEx3 :=
    Reachable.step (Reachable.step (Reachable.step Reachable.init (Step.enq initSched))
      (Step.enq sEx1)) (Step.done sEx2 hne)
  exact ⟨hr, rfl, (scheduler_fifo sEx3 hr).2 1 rfl⟩

/-- A predicate false on all writes counts zero over mapped chunk writes. -/
theorem countP_map_write (p : Ev → Bool) (cs : List String)
    (h : ∀ s, p (Ev.write s) = false) : List.countP p (cs.map Ev.write) = 0 := by
  induction cs with
  | nil => rfl
  | cons c cs ih => simp [List.countP_cons, h, ih]

/-- Chunk writes count no dispatch-complete signals. -/
theorem completeCount_map_write (cs : List String) : completeCount (cs.map Ev.write) = 0 :=
  countP_map_write isComplete cs (fun _ => rfl)

/-- Chunk writes commit no status. -/
theorem statusCount_map_write (cs : List String) : statusCount (cs.map Ev.write) = 0 :=
  countP_map_write isStatusEv cs (fun _ => rfl)

/-- Chunk writes neither finalize nor complete, so the scan skips them. -/
theorem cafGo_map_write (b : Bool) (cs : List String) (rest : List Ev) :
    cafGo b (cs.map Ev.write ++ rest) = cafGo b rest := by
  induction cs with
  | nil => rfl
  | cons c cs ih => simp [cafGo, isComplete, isFinalize, ih]

/-- Deleting the stream key removes it: no lookup can find it afterwards. -/
theorem jsGet_filter_stream (l : List (String × JVal)) :
    jsGet (l.filter (fun p => !(p.1 == "stream"))) "stream" = none := by
  induction l with
  | nil => rfl
  | cons q rest ih =>
    obtain ⟨k2, v⟩ := q
    by_cases hk : k2 = "stream"
    · simpa [List.filter_cons, hk] using ih
    · simpa [List.filter_cons, hk, jsGet] using ih

/-- If lookup finds no stream key, no entry carries that key. -/
theorem jsGet_none_keys {l : List (String × JVal)} (h : jsGet l "stream" = none) :
    ∀ p, p ∈ l → p.1 ≠ "stream" := by
  induction l with
  | nil => intro p hp; cases hp
  | cons q rest ih =>
    obtain ⟨k2, v⟩ := q
    intro p hp
    by_cases hk : k2 = "stream"
    · simp [jsGet, hk] at h
    · rcases List.mem_cons.mp hp with heq | hmem
      · subst heq; simpa using hk
      · exact ih (by simpa [jsGet, hk] using h) p hmem

/-- Counterexample to claim C3 as stated: in the heartbeat variant a buffered
dispatch whose downstream call fails with no response at all leaves the caller
with the already-committed status 200, not the claimed status 500. -/
theorem downstream_failure_claim_cex :
    callerStatus (serverTimeline (Outcome.buffered (Except.error cexTransportErr))) = some 200
    ∧ (200 : Nat) ≠ 500 :=
  ⟨rfl, by decide⟩

/-- Claim C3 as amended: in the heartbeat variant, where status 200
text/plain is committed before dispatch, a downstream HTTP-level error
response is reported inline in the body with the JSON-serialized downstream
error body, and a failure with no response is reported inline with the error
description, the caller-visible status staying 200 in both modes; in the
raw-passthrough variants any downstream call failure yields status 500 with
the error description (err.toString()) as body. -/
theorem downstream_failure_mapping (st : Nat) (d : JVal) (msg : String) :
    srvCatch ⟨some (st, d), msg⟩
      = [Ev.write (forwardErrorMark ++ jsonStringifyCompact d), Ev.endResp, Ev.complete]
    ∧ srvCatch ⟨none, msg⟩ = [Ev.write (forwardErrorMark ++ msg), Ev.endResp, Ev.complete]
    ∧ callerStatus (serverTimeline (Outcome.buffered (Except.error ⟨some (st, d), msg⟩)))
      = some 200
    ∧ callerStatus (serverTimeline (Outcome.streamed (Except.error ⟨none, msg⟩))) = some 200
    ∧ dispatchPassthrough (Except.error ⟨some (st, d), msg⟩)
      = [Ev.statusSend 500 msg, Ev.complete]
    ∧ callerStatus (dispatchPassthrough (Except.error ⟨none, msg⟩)) = some 500 :=
  ⟨rfl, rfl, rfl, rfl, rfl, rfl⟩

/-- Witness for the amended claim C3 at a concrete transport failure. -/
theorem downstream_failure_mapping_witness :
    callerStatus (dispatchPassthrough
      (Except.error ⟨none, "Error: connect ECONNREFUSED 127.0.0.1:443"⟩)) = some 500 :=
  (downstream_failure_mapping 502 JVal.null "Error: connect ECONNREFUSED 127.0.0.1:443").2.2.2.2.2

/-- Claim C4: the Body Transformer computes stream-mode true exactly when the
copied body holds the boolean true under the key stream; the forwarded copy
never retains a stream key; an entry survives into the forwarded copy exactly
when it is an entry of the input whose key is not stream (so every other
entry passes through unchanged and the caller's original is never mutated —
the transform is a pure function of the input); and when the key is absent
the forwarded body is the input itself and stream-mode is false. -/
theorem body_transformer_props (body : List (String × JVal)) :
    ((transformBody body).2 = true ↔ jsGet body "stream" = some (JVal.bool true))
    ∧ jsGet (transformBody body).1 "stream" = none
    ∧ (∀ p, p ∈ (transformBody body).1 ↔ (p ∈ body ∧ p.1 ≠ "stream"))
    ∧ (jsGet body "stream" = none →
        (transformBody body).1 = body ∧ (transformBody body).2 = false) := by
  refine ⟨?_, ?_, ?_, ?_⟩
  · simp only [transformBody]
    cases hg : jsGet body "stream" with
    | none => simp [streamFlag, hg]
    | some v =>
      cases v with
      | null => simp [streamFlag, hg]
      | bool b => cases b <;> simp [streamFlag, hg]
      | num n => simp [streamFlag, hg]
      | str s2 => simp [streamFlag, hg]
      | arr es => simp [streamFlag, hg]
      | obj ms => simp [streamFlag, hg]
  · simp only [transformBody]
    cases hg : jsGet body "stream" with
    | none => simp [hg]
    | some v => simp [hg, jsGet_filter_stream]
  · intro p
    simp only [transformBody]
    cases hg : jsGet body "stream" with
    | some v => simp [hg, List.mem_filter]
    | none =>
      simp only [hg, Option.isSome_none, Bool.false_eq_true, if_false]
      exact ⟨fun hp => ⟨hp, jsGet_none_keys hg p hp⟩, fun hp => hp.1⟩
  · intro hg
    simp [transformBody, hg, streamFlag]

/-- Witness for claim C4 on a body without the stream key. -/
theorem body_transformer_props_witness :
    jsGet exBodyNoStream "stream" = none
    ∧ (transformBody exBodyNoStream).1 = exBodyNoStream
    ∧ (transformBody exBodyNoStream).2 = false := by
  have h := (body_transformer_props exBodyNoStream).2.2.2 rfl
  exact ⟨rfl, h.1, h.2⟩

/-- Claim C5: the Header Filter keeps exactly the entries whose lowercased key
is in the allow-list, passing original casing and value through unchanged
(membership in the output coincides with allow-listed membership in the
input), and it maps the empty mapping to the empty mapping.  It is a pure
function, hence deterministic and side-effect free. -/
theorem header_filter_props (hs : List (String × String)) :
    (∀ p, p ∈ filterHeaders hs ↔ (p ∈ hs ∧ lowerString p.1 ∈ allowedHeaders))
    ∧ filterHeaders [] = [] := by
  refine ⟨fun p => ?_, rfl⟩
  simp [filterHeaders, List.mem_filter]

/-- Witness for claim C5 on the spec's example header set. -/
theorem header_filter_props_witness :
    ("Authorization", "Bearer t") ∈ filterHeaders exHeaders
    ∧ filterHeaders ([] : List (String × String)) = [] :=
  ⟨((header_filter_props exHeaders).1 _).mpr ⟨by decide, by decide⟩,
    (header_filter_props []).2⟩

/-- Counterexample to claim C6 as stated: in the raw-passthrough variants a
streaming dispatch that errors mid-transfer signals dispatch-complete exactly
once but without first finalizing the client response (pipe does not end the
destination on a source error and the on-error listener only invokes
processQueue). -/
theorem dispatch_complete_claim_cex :
    completeAfterFinalize (dispatchPassthrough (Except.ok cexStreamErr)) = false
    ∧ completeCount (dispatchPassthrough (Except.ok cexStreamErr)) = 1 :=
  ⟨rfl, rfl⟩

/-- Claim C6 as amended: every exit path of every dispatched request signals
dispatch-complete exactly once, in the heartbeat variant and the
raw-passthrough variants alike, so a single failing entry never stalls the
queue; in the heartbeat variant the signal always follows finalization of the
client response, while the passthrough variants' mid-stream-error path
signals without finalizing. -/
theorem dispatch_complete_exactly_once (o : Outcome) (r : Except AxiosErr StreamResp) :
    completeCount (srvDispatch o) = 1
    ∧ completeAfterFinalize (srvDispatch o) = true
    ∧ completeCount (dispatchPassthrough r) = 1 := by
  refine ⟨?_, ?_, ?_⟩
  · cases o with
    | streamed r2 =>
      cases r2 with
      | ok sr =>
        obtain ⟨st, hd, cs, tm⟩ := sr
        cases tm <;>
          simp [srvDispatch, dispatchStreamSrv, completeCount, List.countP_append,
            completeCount_map_write, List.countP_cons, isComplete]
      | error e =>
        obtain ⟨resp, msg⟩ := e
        cases resp with
        | none => rfl
        | some pr => obtain ⟨a, b⟩ := pr; rfl
    | buffered r2 =>
      cases r2 with
      | ok br => rfl
      | error e =>
        obtain ⟨resp, msg⟩ := e
        cases resp with
        | none => rfl
        | some pr => obtain ⟨a, b⟩ := pr; rfl
  · cases o with
    | streamed r2 =>
      cases r2 with
      | ok sr =>
        obtain ⟨st, hd, cs, tm⟩ := sr
        cases tm <;>
          simp [srvDispatch, dispatchStreamSrv, completeAfterFinalize, cafGo_map_write,
            cafGo, isComplete, isFinalize]
      | error e =>
        obtain ⟨resp, msg⟩ := e
        cases resp with
        | none => rfl
        | some pr => obtain ⟨a, b⟩ := pr; rfl
    | buffered r2 =>
      cases r2 with
      | ok br => rfl
      | error e =>
        obtain ⟨resp, msg⟩ := e
        cases resp with
        | none => rfl
        | some pr => obtain ⟨a, b⟩ := pr; rfl
  · cases r with
    | ok sr =>
      obtain ⟨st, hd, cs, tm⟩ := sr
      cases tm <;>
        simp [dispatchPassthrough, completeCount, List.countP_cons, List.countP_append,
          completeCount_map_write, isComplete]
    | error e =>
      obtain ⟨resp, msg⟩ := e
      rfl

/-- Witness for the amended claim C6 at a concrete buffered success. -/
theorem dispatch_complete_exactly_once_witness :
    completeCount (srvDispatch (Outcome.buffered (Except.ok ⟨200, exampleBody⟩))) = 1 :=
  (dispatch_complete_exactly_once (Outcome.buffered (Except.ok ⟨200, exampleBody⟩))
    (Except.error ⟨none, "Error: socket hang up"⟩)).1

/-- Counterexample to claim C7 as stated: in the raw-passthrough variant a
mid-stream read error produces no inline error marker and no response
termination — the error path appends only the dispatch-complete signal. -/
theorem mid_stream_error_claim_cex :
    dispatchPassthrough (Except.ok cexStreamErr)
      = [Ev.writeHeadRaw 200 [], Ev.write "data: hello\n", Ev.complete]
    ∧ Ev.endResp ∉ dispatchPassthrough (Except.ok cexStreamErr)
    ∧ Ev.write streamErrorLine ∉ dispatchPassthrough (Except.ok cexStreamErr) :=
  ⟨rfl, by decide, by decide⟩

/-- Claim C7 as amended: on a mid-stream read error the heartbeat variant
writes the inline error marker after the chunks already relayed, finalizes
the response and signals dispatch-complete, committing no further status (the
already-sent status stands); the raw-passthrough variants on the same path
leave the relayed status committed and only signal dispatch-complete exactly
once, writing no marker and not finalizing. -/
theorem mid_stream_error_handling (st : Nat) (hd : List (String × String))
    (cs : List String) (emsg : String) :
    dispatchStreamSrv (Except.ok ⟨st, hd, cs, StreamTerm.errored emsg⟩)
      = cs.map Ev.write ++ [Ev.write streamErrorLine, Ev.endResp, Ev.complete]
    ∧ statusCount (dispatchStreamSrv (Except.ok ⟨st, hd, cs, StreamTerm.errored emsg⟩)) = 0
    ∧ dispatchPassthrough (Except.ok ⟨st, hd, cs, StreamTerm.errored emsg⟩)
      = Ev.writeHeadRaw st hd :: (cs.map Ev.write ++ [Ev.complete])
    ∧ completeCount (dispatchPassthrough (Except.ok ⟨st, hd, cs, StreamTerm.errored emsg⟩))
      = 1 := by
  refine ⟨rfl, ?_, rfl, ?_⟩
  · simp [dispatchStreamSrv, statusCount, List.countP_append, List.countP_cons,
      statusCount_map_write, isStatusEv]
  · simp [dispatchPassthrough, completeCount, List.countP_cons, List.countP_append,
      completeCount_map_write, isComplete]

/-- Witness for the amended claim C7 at a concrete erroring stream. -/
theorem mid_stream_error_handling_witness :
    statusCount (dispatchStreamSrv
      (Except.ok ⟨200, [], ["data: x\n"], StreamTerm.errored "read timeout"⟩)) = 0 :=
  (mid_stream_error_handling 200 [] ["data: x\n"] "read timeout").2.1

/-- Counterexample to claim C8 as stated: across a whole dispatched request in
the heartbeat variant not a single waiting marker line is emitted — the
5000 ms interval is cleared by the 2000 ms hold timeout before its first
tick. -/
theorem heartbeat_claim_cex :
    waitingCount (serverTimeline (Outcome.buffered (Except.ok ⟨200, exampleBody⟩))) = 0 := by
  decide

/-- Claim C8 as amended: every heartbeat tick precedes the clearing instant
(clearInterval semantics — no tick at or after cancellation), but with the
5-time-unit interval and the 2-time-unit hold of server.js the interval is
cancelled before its first tick, so no waiting marker line is ever emitted;
exactly one transition marker is written, after the (empty) heartbeat segment
and before the first byte of real response data. -/
theorem heartbeat_emitter (o : Outcome) (clearAt interval t : Nat) :
    (t ∈ heartbeatTicks clearAt interval → t < clearAt)
    ∧ heartbeatTicks 2000 5000 = []
    ∧ serverTimeline o
      = Ev.writeHead 200 "text/plain; charset=utf-8" ::
          Ev.write transitionLine :: srvDispatch o
    ∧ transitionCount (serverTimeline o) = 1 + transitionCount (srvDispatch o)
    ∧ waitingCount (serverTimeline o) = waitingCount (srvDispatch o) := by
  have e3 : serverTimeline o
      = Ev.writeHead 200 "text/plain; charset=utf-8" ::
          Ev.write transitionLine :: srvDispatch o := rfl
  refine ⟨?_, rfl, e3, ?_, ?_⟩
  · intro ht
    exact of_decide_eq_true (List.mem_filter.mp ht).2
  · rw [e3]
    simp [transitionCount, List.countP_cons, isTransitionWrite, transitionLine]
    omega
  · rw [e3]
    simp [waitingCount, List.countP_cons, isWaitingWrite, transitionLine, waitingLine]

/-- Witness for the amended claim C8: with a 7-unit clear instant and a 2-unit
interval the tick at time 2 occurs and indeed precedes the clearing. -/
theorem heartbeat_emitter_witness :
    (2 : Nat) ∈ heartbeatTicks 7 2 ∧ (2 : Nat) < 7 :=
  ⟨by decide,
    (heartbeat_emitter (Outcome.buffered (Except.error ⟨none, "e"⟩)) 7 2 2).1 (by decide)⟩

/-- Claim C9: a successful buffered dispatch writes exactly the serialized
downstream body and finalizes; a structured body is rendered as formatted
JSON text (JSON.stringify with indent 2) and a string body as its literal
string form; on the round-trip scenario body the caller-received text parses
back to the same structured value. -/
theorem buffered_roundtrip (st : Nat) (d : JVal) (ms : JMembers) (s : String) :
    dispatchBufSrv (Except.ok ⟨st, d⟩)
      = [Ev.write (serializeData d), Ev.endResp, Ev.complete]
    ∧ serializeData (JVal.obj ms) = jsonStringify (JVal.obj ms)
    ∧ serializeData (JVal.str s) = s
    ∧ serializeData exampleBody = "\x7b\n  \"result\": \"ok\"\n\x7d"
    ∧ jsonParse (serializeData exampleBody) = some exampleBody :=
  ⟨rfl, rfl, rfl, rfl, rfl⟩

/-- Witness for claim C9: the concrete round-trip. -/
theorem buffered_roundtrip_witness :
    jsonParse (serializeData exampleBody) = some exampleBody :=
  (buffered_roundtrip 200 JVal.null JMembers.nil "ok").2.2.2.2

/-- Claim C10: in the heartbeat variant the status line is committed as 200
with Content-Type text/plain before the downstream call is issued — it is the
first client-visible event — and no later event of any dispatch outcome
(streaming or buffered, success, downstream HTTP error or transport failure)
commits a status, so the caller-visible status is always 200 and downstream
statuses are never reflected in it. -/
theorem heartbeat_variant_status (o : Outcome) :
    callerStatus (serverTimeline o) = some 200
    ∧ (serverTimeline o).head? = some (Ev.writeHead 200 "text/plain; charset=utf-8")
    ∧ statusCount (srvDispatch o) = 0 := by
  refine ⟨rfl, rfl, ?_⟩
  cases o with
  | streamed r =>
    cases r with
    | ok sr =>
      obtain ⟨st, hd, cs, tm⟩ := sr
      cases tm <;>
        simp [srvDispatch, dispatchStreamSrv, statusCount, List.countP_append,
          List.countP_cons, statusCount_map_write, isStatusEv]
    | error e =>
      obtain ⟨resp, msg⟩ := e
      cases resp with
      | none => rfl
      | some pr => obtain ⟨a, b⟩ := pr; rfl
  | buffered r =>
    cases r with
    | ok br => rfl
    | error e =>
      obtain ⟨resp, msg⟩ := e
      cases resp with
      | none => rfl
      | some pr => obtain ⟨a, b⟩ := pr; rfl

/-- Witness for claim C10: a downstream status 502 stream still reaches the
caller under the pre-committed status 200. -/
theorem heartbeat_variant_status_witness :
    callerStatus (serverTimeline
      (Outcome.streamed (Except.ok ⟨502, [], [], StreamTerm.ended⟩))) = some 200 :=
  (heartbeat_variant_status (Outcome.streamed (Except.ok ⟨502, [], [], StreamTerm.ended⟩))).1
